import Mathlib

/-!
Verification of the control-flow contract of the CI automation script
`.github/workflows/scripts/spawn-devnet.py`.

The script is a linear pipeline: authorization gate, comment parsing,
artifact download, wasm publication, genesis generation, chain-data
publication, downstream dispatch.  We embed it as a pure function from a
`World` (the environment plus oracles giving the exit codes and stdout of
every external call) to a `RunResult` (an exit outcome plus the trace of
external actions performed, in order).

Python string primitives used by the script (`split`, `splitlines`,
slicing, `in`) are re-implemented over `List Char` by structural
recursion so that concrete runs evaluate inside the kernel.
-/

namespace SpawnDevnet

/-- Does `l` start with `pat`?  (Used to locate separator occurrences.) -/
def leadsWith : List Char → List Char → Bool
  | [], _ => true
  | _ :: _, [] => false
  | a :: as, b :: bs => a == b && leadsWith as bs

/-- First occurrence of separator `sep` in a char list: returns the part
before the occurrence and the part after it, or `none` if absent. -/
def findSep (sep : List Char) : List Char → Option (List Char × List Char)
  | [] => none
  | c :: rest =>
    if leadsWith sep (c :: rest) then some ([], (c :: rest).drop sep.length)
    else
      match findSep sep rest with
      | none => none
      | some (pre, post) => some (c :: pre, post)

/-- Fuel-driven worker for Python `str.split(sep)` (`sep` nonempty). -/
def pySplitAux (sep : List Char) : Nat → List Char → List (List Char)
  | 0, s => [s]
  | fuel + 1, s =>
    match findSep sep s with
    | none => [s]
    | some (pre, post) => pre :: pySplitAux sep fuel post

/-- Python `s.split(sep)` over char lists (nonempty `sep`): every
occurrence of `sep` separates fields, empty fields included. -/
def pySplitChars (sep s : List Char) : List (List Char) :=
  pySplitAux sep (s.length + 1) s

/-- Rebuild a `String` from its characters. -/
def pstr (l : List Char) : String := ⟨l⟩

/-- Python `s.split(sep)` on `String`s. -/
def pysplit (sep s : String) : List String :=
  (pySplitChars sep.data s.data).map pstr

/-- Python slice `s[0:n]`. -/
def pytake (n : Nat) (s : String) : String := pstr (s.data.take n)

/-- Python `len(s)`. -/
def pylen (s : String) : Nat := s.data.length

/-- Does `s` contain `sub` as a contiguous subsequence? -/
def containsSeq : List Char → List Char → Bool
  | sub, [] => sub.isEmpty
  | sub, c :: rest => leadsWith sub (c :: rest) || containsSeq sub rest

/-- Python `sub in s` on strings. -/
def pyin (sub s : String) : Bool := containsSeq sub.data s.data

/-- Python `s.splitlines()` for newline-only line breaks: split on
`'\n'`, dropping the trailing empty field produced by a final newline. -/
def splitlines (s : String) : List String :=
  if s.data.isEmpty then []
  else
    let parts := pysplit "\n" s
    match s.data.getLast? with
    | some c => if c == '\n' then parts.dropLast else parts
    | none => parts

/-- Python negative indexing `l[-k]` (for `k ≥ 1`): `none` on overrun. -/
def pyneg (l : List String) (k : Nat) : Option String :=
  if l.length < k then none else l.get? (l.length - k)

/-- Scanner for the regular expression `\[([^\]]+)` of
`re.search('\[([^\]]+)', pr_comment)`: find the first `'['` that is
followed by at least one non-`']'` character and capture the maximal run
of non-`']'` characters after it; `re.search` restarts at the next
position when the one-or-more requirement fails. -/
def reScanChars : List Char → Option (List Char)
  | [] => none
  | c :: rest =>
    if c == '[' then
      let cap := rest.takeWhile (fun d => !(d == ']'))
      if cap.isEmpty then reScanChars rest else some cap
    else reScanChars rest

/-- `re.search('\[([^\]]+)', body).group(1)`, as an `Option`: `none`
models the `AttributeError` crash on a failed match. -/
def reSearchBracket (body : String) : Option String :=
  (reScanChars body.data).map pstr

/-- Lines 97-99 of the script:
`parameters = re.search('\[([^\]]+)', pr_comment).group(1).split(', ')`,
`template_name = parameters[0]`,
`retention_period = 7 if len(parameters) == 1 else parameters[1]`.
The retention period is the Python `int` `7` (right) when the list has a
single element and the raw string `parameters[1]` (left) otherwise. -/
def parse_command (pr_comment : String) : Option (String × (String ⊕ Nat)) :=
  match reSearchBracket pr_comment with
  | none => none
  | some captured =>
    let parameters := pysplit ", " captured
    let template_name := parameters.headD ""
    let retention_period : String ⊕ Nat :=
      if parameters.length == 1 then Sum.inr 7 else Sum.inl (parameters.getD 1 "")
    some (template_name, retention_period)

/-- Line 170 of the script:
`chain_id = genesis_folder_path.split("/")[1][:-5]` — the `'/'`-separated
component at index 1, with its last five characters removed (`none`
models the `IndexError` when the path has fewer than two components). -/
def chainIdOf (genesis_folder_path : String) : Option String :=
  match (pysplit "/" genesis_folder_path).get? 1 with
  | none => none
  | some comp => some (pytake (pylen comp - 5) comp)

/-- Token at index 4 of a stdout line split on single spaces
(lines 166-169 of the script). -/
def parse_output_line (line : String) : Option String :=
  (pysplit " " line).get? 4

/-- Lines 166-169 of the script: the genesis folder path from the
second-to-last stdout line and the release archive path from the last
stdout line, each the index-4 token of the line split on single spaces;
`none` models the `IndexError` crash when a line or token is missing. -/
def genesis_paths (stdout : String) : Option (String × String) :=
  let lines := splitlines stdout
  match pyneg lines 2 with
  | none => none
  | some sline =>
    match parse_output_line sline with
    | none => none
    | some genesis_folder_path =>
      match pyneg lines 1 with
      | none => none
      | some lline =>
        match parse_output_line lline with
        | none => none
        | some release_archive_path =>
          some (genesis_folder_path, release_archive_path)

/-- A CI artifact descriptor, as consumed by the artifact loop
(lines 109-148): `name`, the associated workflow run's head commit
(`artifact['workflow_run']['head_sha']`), the expiration flag, and the
archive download URL. -/
structure Artifact where
  name : String
  head_sha : String
  expired : Bool
  archive_download_url : String

/-- The environment of one script execution: the inputs read from the
GitHub APIs and the outcome (exit code, and stdout where consumed) of
every external call the script can make.  Exit-code oracles are keyed by
the varying argument of the call (URL, zip name, file name, path). -/
structure World where
  membership_state : String
  pr_comment : String
  head_sha : String
  artifacts : List Artifact
  curl_rc : String → Int
  unzip_rc : String → Int
  checksums : List (String × String)
  publish_rc : String → Int
  template_rc : Int
  chmod_rc : Int
  genesis_rc : Int
  genesis_stdout : String
  zip_rc : Int
  upload_rc : String → Int
  dispatch_rc : Int

/-- One external action performed by the script, in trace order. -/
inductive Action where
  | get_membership
  | fetch_pr
  | list_artifacts
  | download_artifact (url : String) (zip_name : String)
  | unzip (zip_name : String)
  | publish_wasm (file_name : String) (bucket : String)
  | upload_chain_data_archive (path : String) (bucket : String)
  | zip_setup_folder (chain_id : String)
  | download_genesis_template (template_name : String)
  | chmod
  | init_network (chain_prefix_of : String)
  | dispatch_release (payload : String)
deriving DecidableEq

/-- How one script execution ends: `exited code` for `exit(code)` or
falling off the end, `crashed` for an uncaught Python exception. -/
inductive Outcome where
  | exited (code : Nat)
  | crashed
deriving DecidableEq

/-- Result of one script execution: the final outcome and the ordered
trace of external actions performed. -/
structure RunResult where
  outcome : Outcome
  actions : List Action
deriving DecidableEq

/-- `WASM_BUCKET = 'namada-wasm-master'` (line 77). -/
def WASM_BUCKET : String := "namada-wasm-master"

/-- `CHAIN_DATA_BUCKET = 'namada-chain-data-master'` (line 78). -/
def CHAIN_DATA_BUCKET : String := "namada-chain-data-master"

/-- The JSON payload built by `dispatch_release_workflow` (lines 46-55):
`json.dumps({"event_type": "release", "client_payload": {"chain-id": chain_id}})`. -/
def dispatch_payload (chain_id : String) : String :=
  "\x7b\"event_type\": \"release\", \"client_payload\": \x7b\"chain-id\": \"" ++
    chain_id ++ "\"\x7d\x7d"

/-- The chain prefix passed to `namadac utils init-network`
(line 161): `'namada-{}'.format(short_sha)` with `short_sha = head_sha[0:7]`. -/
def chain_prefix_of (w : World) : String := "namada-" ++ pytake 7 w.head_sha

/-- The wasm-branch condition of the artifact loop (line 110):
`'wasm' in artifact['name'] and artifact['workflow_run']['head_sha'] == head_sha
and not artifact['expired']`. -/
def matches_wasm (w : World) (a : Artifact) : Bool :=
  pyin "wasm" a.name && (a.head_sha == w.head_sha) && !a.expired

/-- The binaries-branch condition of the artifact loop (line 134),
reached only when the wasm condition is false (`elif`). -/
def matches_binaries (w : World) (a : Artifact) : Bool :=
  pyin "binaries" a.name && (a.head_sha == w.head_sha) && !a.expired

/-- Number of artifacts that enter either branch of the loop, i.e. the
final value of `steps_done` when no download or unzip fails. -/
def matched_count (w : World) (l : List Artifact) : Nat :=
  l.countP (fun a => matches_wasm w a || matches_binaries w a)

/-- The wasm publication loop (lines 124-129): for every file name in
the checksums manifest values, run `aws s3 cp`; a non-zero exit only
prints an error (`print("Error uploading ...")`) and neither exits nor
skips the remaining files. -/
def publishLoop (w : World) : List String → List Action → List Action
  | [], acts => acts
  | wasm :: rest, acts =>
    let acts1 := acts ++ [Action.publish_wasm wasm WASM_BUCKET]
    let publish_wasm_command_outcome := w.publish_rc wasm
    -- `if publish_wasm_command_outcome.returncode != 0:` only prints;
    -- the loop continues either way.
    publishLoop w rest acts1

/-- Result of the artifact loop: completion with the final `steps_done`,
or an early `exit(1)` from a failed download or unzip. -/
inductive LoopResult where
  | done (steps_done : Nat) (acts : List Action)
  | aborted (acts : List Action)

/-- The artifact loop (lines 109-148): for each artifact, the wasm
branch downloads and unzips `wasm.zip` (exit 1 on failure of either),
publishes every checksums value, and increments `steps_done`; the
`elif` binaries branch downloads and unzips `binaries.zip` likewise. -/
def artifact_loop (w : World) : List Artifact → Nat → List Action → LoopResult
  | [], steps_done, acts => LoopResult.done steps_done acts
  | artifact :: rest, steps_done, acts =>
    if matches_wasm w artifact then
      let url := artifact.archive_download_url
      let acts1 := acts ++ [Action.download_artifact url "wasm"]
      if w.curl_rc url ≠ 0 then LoopResult.aborted acts1
      else
        let acts2 := acts1 ++ [Action.unzip "wasm"]
        if w.unzip_rc "wasm" ≠ 0 then LoopResult.aborted acts2
        else
          let acts3 := publishLoop w (w.checksums.map Prod.snd) acts2
          artifact_loop w rest (steps_done + 1) acts3
    else if matches_binaries w artifact then
      let url := artifact.archive_download_url
      let acts1 := acts ++ [Action.download_artifact url "binaries"]
      if w.curl_rc url ≠ 0 then LoopResult.aborted acts1
      else
        let acts2 := acts1 ++ [Action.unzip "binaries"]
        if w.unzip_rc "binaries" ≠ 0 then LoopResult.aborted acts2
        else artifact_loop w rest (steps_done + 1) acts2
    else artifact_loop w rest steps_done acts

/-- Lines 176-200: zip the setup folder, upload the release archive and
the setup zip to the chain-data bucket, and dispatch the release
workflow.  As in the source, the check after the setup-zip upload
re-reads `upload_release_command_outcome` — the outcome of the earlier
release-archive upload — instead of `upload_setup_command_outcome`. -/
def run_publish_chain (w : World) (chain_id release_archive_path : String)
    (acts : List Action) : RunResult :=
  let acts1 := acts ++ [Action.zip_setup_folder chain_id]
  if w.zip_rc ≠ 0 then ⟨Outcome.exited 1, acts1⟩
  else
    let acts2 := acts1 ++ [Action.upload_chain_data_archive release_archive_path CHAIN_DATA_BUCKET]
    if w.upload_rc release_archive_path ≠ 0 then ⟨Outcome.exited 1, acts2⟩
    else
      let acts3 := acts2 ++
        [Action.upload_chain_data_archive (chain_id ++ "-setup.zip") CHAIN_DATA_BUCKET]
      let upload_setup_command_outcome := w.upload_rc (chain_id ++ "-setup.zip")
      -- Line 189 tests `upload_release_command_outcome.returncode`, not
      -- the setup upload's outcome bound on line 188.
      if w.upload_rc release_archive_path ≠ 0 then ⟨Outcome.exited 1, acts3⟩
      else
        let acts4 := acts3 ++ [Action.dispatch_release (dispatch_payload chain_id)]
        if w.dispatch_rc ≠ 0 then ⟨Outcome.exited 1, acts4⟩
        else ⟨Outcome.exited 0, acts4⟩

/-- Lines 154-174: download the genesis template, `chmod +x` and invoke
the genesis binary (exit 1 on any non-zero exit), parse the genesis
folder and release archive paths from its stdout and the chain ID from
the folder path (uncaught `IndexError` when parsing fails), then publish
the chain data. -/
def run_genesis (w : World) (template_name : String) (acts : List Action) : RunResult :=
  let acts1 := acts ++ [Action.download_genesis_template template_name]
  if w.template_rc ≠ 0 then ⟨Outcome.exited 1, acts1⟩
  else
    let acts2 := acts1 ++ [Action.chmod]
    if w.chmod_rc ≠ 0 then ⟨Outcome.exited 1, acts2⟩
    else
      let acts3 := acts2 ++ [Action.init_network (chain_prefix_of w)]
      if w.genesis_rc ≠ 0 then ⟨Outcome.exited 1, acts3⟩
      else
        match genesis_paths w.genesis_stdout with
        | none => ⟨Outcome.crashed, acts3⟩
        | some (genesis_folder_path, release_archive_path) =>
          match chainIdOf genesis_folder_path with
          | none => ⟨Outcome.crashed, acts3⟩
          | some chain_id => run_publish_chain w chain_id release_archive_path acts3

/-- Lines 104-152: list the artifacts, run the artifact loop, and abort
with exit 1 unless `steps_done` is exactly 2; then continue with
genesis generation. -/
def run_from_artifacts (w : World) (template_name : String) (acts : List Action) : RunResult :=
  let acts1 := acts ++ [Action.list_artifacts]
  match artifact_loop w w.artifacts 0 acts1 with
  | LoopResult.aborted acts2 => ⟨Outcome.exited 1, acts2⟩
  | LoopResult.done steps_done acts2 =>
    if steps_done ≠ 2 then ⟨Outcome.exited 1, acts2⟩
    else run_genesis w template_name acts2

/-- The whole script (lines 83-200): membership gate (`exit(0)` for any
state other than `"active"`), PR fetch, comment parsing (uncaught
`AttributeError` when the bracket match fails; the retention period is
bound but used only for logging), then the artifact pipeline. -/
def run (w : World) : RunResult :=
  let acts0 := [Action.get_membership]
  if w.membership_state ≠ "active" then ⟨Outcome.exited 0, acts0⟩
  else
    let acts1 := acts0 ++ [Action.fetch_pr]
    match parse_command w.pr_comment with
    | none => ⟨Outcome.crashed, acts1⟩
    | some (template_name, _retention_period) => run_from_artifacts w template_name acts1


/-- Actions that the artifact loop itself can emit. -/
def loop_action : Action → Bool
  | Action.download_artifact _ _ => true
  | Action.unzip _ => true
  | Action.publish_wasm _ _ => true
  | _ => false

/-- Is an action the repository-dispatch call? -/
def is_dispatch : Action → Bool
  | Action.dispatch_release _ => true
  | _ => false

/-- Is an action the genesis-template download (the first action of the
genesis-generation stage)? -/
def mentions_template : Action → Bool
  | Action.download_genesis_template _ => true
  | _ => false

theorem loop_action_not_dispatch (x : Action) (h : loop_action x = true) :
    is_dispatch x = false := by
  cases x <;> simp_all [loop_action, is_dispatch]

theorem loop_action_not_template (x : Action) (h : loop_action x = true) :
    mentions_template x = false := by
  cases x <;> simp_all [loop_action, mentions_template]

theorem publishLoop_eq (w : World) (values : List String) : ∀ acts : List Action,
    publishLoop w values acts =
      acts ++ values.map (fun v => Action.publish_wasm v WASM_BUCKET) := by
  induction values with
  | nil => intro acts; simp [publishLoop]
  | cons v rest ih => intro acts; simp [publishLoop, ih, List.append_assoc]

theorem artifact_loop_cons_wasm (w : World) (a : Artifact) (rest : List Artifact)
    (s : Nat) (acts : List Action) (hw : matches_wasm w a = true)
    (hcurl : w.curl_rc a.archive_download_url = 0) (hz : w.unzip_rc "wasm" = 0) :
    artifact_loop w (a :: rest) s acts = artifact_loop w rest (s + 1)
      (acts ++ (Action.download_artifact a.archive_download_url "wasm" ::
        Action.unzip "wasm" ::
        (w.checksums.map Prod.snd).map (fun v => Action.publish_wasm v WASM_BUCKET))) := by
  simp [artifact_loop, hw, hcurl, hz, publishLoop_eq, List.append_assoc]

theorem artifact_loop_cons_binaries (w : World) (a : Artifact) (rest : List Artifact)
    (s : Nat) (acts : List Action) (hw : matches_wasm w a = false)
    (hb : matches_binaries w a = true)
    (hcurl : w.curl_rc a.archive_download_url = 0) (hz : w.unzip_rc "binaries" = 0) :
    artifact_loop w (a :: rest) s acts = artifact_loop w rest (s + 1)
      (acts ++ (Action.download_artifact a.archive_download_url "binaries" ::
        [Action.unzip "binaries"])) := by
  simp [artifact_loop, hw, hb, hcurl, hz, List.append_assoc]

theorem artifact_loop_cons_skip (w : World) (a : Artifact) (rest : List Artifact)
    (s : Nat) (acts : List Action) (hw : matches_wasm w a = false)
    (hb : matches_binaries w a = false) :
    artifact_loop w (a :: rest) s acts = artifact_loop w rest s acts := by
  simp [artifact_loop, hw, hb]

/-- With all downloads and unzips succeeding, the artifact loop
completes, `steps_done` grows by the number of matched artifacts, the
trace extension contains only loop actions, and it contains the download
action for every matched artifact. -/
theorem artifact_loop_ok (w : World) (hc : ∀ u, w.curl_rc u = 0)
    (hu : ∀ z, w.unzip_rc z = 0) (l : List Artifact) : ∀ (s : Nat) (acts : List Action),
    ∃ ext, artifact_loop w l s acts = LoopResult.done (s + matched_count w l) (acts ++ ext)
      ∧ (∀ x ∈ ext, loop_action x = true)
      ∧ (∀ a ∈ l, matches_wasm w a = true →
          Action.download_artifact a.archive_download_url "wasm" ∈ ext)
      ∧ (∀ a ∈ l, matches_wasm w a = false → matches_binaries w a = true →
          Action.download_artifact a.archive_download_url "binaries" ∈ ext) := by
  induction l with
  | nil =>
    intro s acts
    exact ⟨[], by simp [artifact_loop, matched_count], by simp, by simp, by simp⟩
  | cons a rest ih =>
    intro s acts
    cases hw : matches_wasm w a with
    | true =>
      obtain ⟨ext, heq, hall, hmw, hmb⟩ := ih (s + 1)
        (acts ++ (Action.download_artifact a.archive_download_url "wasm" ::
          Action.unzip "wasm" ::
          (w.checksums.map Prod.snd).map (fun v => Action.publish_wasm v WASM_BUCKET)))
      refine ⟨(Action.download_artifact a.archive_download_url "wasm" ::
          Action.unzip "wasm" ::
          (w.checksums.map Prod.snd).map (fun v => Action.publish_wasm v WASM_BUCKET)) ++ ext,
        ?_, ?_, ?_, ?_⟩
      · rw [artifact_loop_cons_wasm w a rest s acts hw (hc _) (hu _), heq]
        have hcnt : matched_count w (a :: rest) = matched_count w rest + 1 := by
          simp [matched_count, List.countP_cons, hw]
        rw [hcnt]
        simp [List.append_assoc]
        omega
      · intro x hx
        simp only [List.mem_append, List.mem_cons, List.mem_map] at hx
        rcases hx with ((rfl | rfl | ⟨v, _, rfl⟩) | hx)
        · rfl
        · rfl
        · rfl
        · exact hall x hx
      · intro a' ha' hwa'
        rcases List.mem_cons.mp ha' with rfl | ha'
        · simp
        · simp only [List.mem_append]
          exact Or.inr (hmw a' ha' hwa')
      · intro a' ha' hwa' hba'
        rcases List.mem_cons.mp ha' with rfl | ha'
        · rw [hw] at hwa'; cases hwa'
        · simp only [List.mem_append]
          exact Or.inr (hmb a' ha' hwa' hba')
    | false =>
      cases hb : matches_binaries w a with
      | true =>
        obtain ⟨ext, heq, hall, hmw, hmb⟩ := ih (s + 1)
          (acts ++ (Action.download_artifact a.archive_download_url "binaries" ::
            [Action.unzip "binaries"]))
        refine ⟨(Action.download_artifact a.archive_download_url "binaries" ::
            [Action.unzip "binaries"]) ++ ext, ?_, ?_, ?_, ?_⟩
        · rw [artifact_loop_cons_binaries w a rest s acts hw hb (hc _) (hu _), heq]
          have hcnt : matched_count w (a :: rest) = matched_count w rest + 1 := by
            simp [matched_count, List.countP_cons, hw, hb]
          rw [hcnt]
          simp [List.append_assoc]
          omega
        · intro x hx
          simp only [List.mem_append, List.mem_cons, List.not_mem_nil, or_false] at hx
          rcases hx with ((rfl | rfl) | hx)
          · rfl
          · rfl
          · exact hall x hx
        · intro a' ha' hwa'
          rcases List.mem_cons.mp ha' with rfl | ha'
          · rw [hw] at hwa'; cases hwa'
          · simp only [List.mem_append]
            exact Or.inr (hmw a' ha' hwa')
        · intro a' ha' hwa' hba'
          rcases List.mem_cons.mp ha' with rfl | ha'
          · simp
          · simp only [List.mem_append]
            exact Or.inr (hmb a' ha' hwa' hba')
      | false =>
        obtain ⟨ext, heq, hall, hmw, hmb⟩ := ih s acts
        refine ⟨ext, ?_, hall, ?_, ?_⟩
        · rw [artifact_loop_cons_skip w a rest s acts hw hb, heq]
          have hcnt : matched_count w (a :: rest) = matched_count w rest := by
            simp [matched_count, List.countP_cons, hw, hb]
          rw [hcnt]
        · intro a' ha' hwa'
          rcases List.mem_cons.mp ha' with rfl | ha'
          · rw [hw] at hwa'; cases hwa'
          · exact hmw a' ha' hwa'
        · intro a' ha' hwa' hba'
          rcases List.mem_cons.mp ha' with rfl | ha'
          · rw [hb] at hba'; cases hba'
          · exact hmb a' ha' hwa' hba'

/-- Without any assumption on the download/unzip oracles, the artifact
loop either completes or aborts, and in both cases only appends loop
actions to the accumulated trace. -/
theorem artifact_loop_shape (w : World) (l : List Artifact) : ∀ (s : Nat) (acts : List Action),
    ∃ ext, (∀ x ∈ ext, loop_action x = true)
      ∧ ((∃ n, artifact_loop w l s acts = LoopResult.done n (acts ++ ext))
          ∨ artifact_loop w l s acts = LoopResult.aborted (acts ++ ext)) := by
  induction l with
  | nil =>
    intro s acts
    exact ⟨[], by simp, Or.inl ⟨s, by simp [artifact_loop]⟩⟩
  | cons a rest ih =>
    intro s acts
    cases hw : matches_wasm w a with
    | true =>
      by_cases hcurl : w.curl_rc a.archive_download_url = 0
      · by_cases hz : w.unzip_rc "wasm" = 0
        · obtain ⟨ext, hall, hres⟩ := ih (s + 1)
            (acts ++ (Action.download_artifact a.archive_download_url "wasm" ::
              Action.unzip "wasm" ::
              (w.checksums.map Prod.snd).map (fun v => Action.publish_wasm v WASM_BUCKET)))
          refine ⟨(Action.download_artifact a.archive_download_url "wasm" ::
              Action.unzip "wasm" ::
              (w.checksums.map Prod.snd).map (fun v => Action.publish_wasm v WASM_BUCKET)) ++ ext,
            ?_, ?_⟩
          · intro x hx
            simp only [List.mem_append, List.mem_cons, List.mem_map] at hx
            rcases hx with ((rfl | rfl | ⟨v, _, rfl⟩) | hx)
            · rfl
            · rfl
            · rfl
            · exact hall x hx
          · rw [artifact_loop_cons_wasm w a rest s acts hw hcurl hz]
            rcases hres with ⟨n, hres⟩ | hres
            · exact Or.inl ⟨n, by rw [hres]; simp [List.append_assoc]⟩
            · exact Or.inr (by rw [hres]; simp [List.append_assoc])
        · refine ⟨[Action.download_artifact a.archive_download_url "wasm", Action.unzip "wasm"],
            ?_, ?_⟩
          · intro x hx
            rcases List.mem_cons.mp hx with rfl | hx
            · rfl
            · rcases List.mem_cons.mp hx with rfl | hx
              · rfl
              · cases hx
          · exact Or.inr (by simp [artifact_loop, hw, hcurl, hz, List.append_assoc])
      · refine ⟨[Action.download_artifact a.archive_download_url "wasm"], ?_, ?_⟩
        · intro x hx
          rcases List.mem_cons.mp hx with rfl | hx
          · rfl
          · cases hx
        · exact Or.inr (by simp [artifact_loop, hw, hcurl, List.append_assoc])
    | false =>
      cases hb : matches_binaries w a with
      | true =>
        by_cases hcurl : w.curl_rc a.archive_download_url = 0
        · by_cases hz : w.unzip_rc "binaries" = 0
          · obtain ⟨ext, hall, hres⟩ := ih (s + 1)
              (acts ++ (Action.download_artifact a.archive_download_url "binaries" ::
                [Action.unzip "binaries"]))
            refine ⟨(Action.download_artifact a.archive_download_url "binaries" ::
                [Action.unzip "binaries"]) ++ ext, ?_, ?_⟩
            · intro x hx
              simp only [List.mem_append, List.mem_cons, List.not_mem_nil, or_false] at hx
              rcases hx with ((rfl | rfl) | hx)
              · rfl
              · rfl
              · exact hall x hx
            · rw [artifact_loop_cons_binaries w a rest s acts hw hb hcurl hz]
              rcases hres with ⟨n, hres⟩ | hres
              · exact Or.inl ⟨n, by rw [hres]; simp [List.append_assoc]⟩
              · exact Or.inr (by rw [hres]; simp [List.append_assoc])
          · refine ⟨[Action.download_artifact a.archive_download_url "binaries",
              Action.unzip "binaries"], ?_, ?_⟩
            · intro x hx
              rcases List.mem_cons.mp hx with rfl | hx
              · rfl
              · rcases List.mem_cons.mp hx with rfl | hx
                · rfl
                · cases hx
            · exact Or.inr (by simp [artifact_loop, hw, hb, hcurl, hz, List.append_assoc])
        · refine ⟨[Action.download_artifact a.archive_download_url "binaries"], ?_, ?_⟩
          · intro x hx
            rcases List.mem_cons.mp hx with rfl | hx
            · rfl
            · cases hx
          · exact Or.inr (by simp [artifact_loop, hw, hb, hcurl, List.append_assoc])
      | false =>
        obtain ⟨ext, hall, hres⟩ := ih s acts
        exact ⟨ext, hall, by rw [artifact_loop_cons_skip w a rest s acts hw hb]; exact hres⟩

/-- Whatever the oracles, chain-data publication only appends to the
accumulated trace. -/
theorem run_publish_chain_tail (w : World) (cid rap : String) (acts : List Action) :
    ∃ rest, (run_publish_chain w cid rap acts).actions = acts ++ rest := by
  simp only [run_publish_chain]
  split_ifs
  · exact ⟨[Action.zip_setup_folder cid], by simp⟩
  · exact ⟨[Action.zip_setup_folder cid,
      Action.upload_chain_data_archive rap CHAIN_DATA_BUCKET], by simp⟩
  · exact ⟨[Action.zip_setup_folder cid,
      Action.upload_chain_data_archive rap CHAIN_DATA_BUCKET,
      Action.upload_chain_data_archive (cid ++ "-setup.zip") CHAIN_DATA_BUCKET,
      Action.dispatch_release (dispatch_payload cid)], by simp⟩
  · exact ⟨[Action.zip_setup_folder cid,
      Action.upload_chain_data_archive rap CHAIN_DATA_BUCKET,
      Action.upload_chain_data_archive (cid ++ "-setup.zip") CHAIN_DATA_BUCKET,
      Action.dispatch_release (dispatch_payload cid)], by simp⟩

/-- The genesis stage only appends to the accumulated trace. -/
theorem run_genesis_tail (w : World) (t : String) (acts : List Action) :
    ∃ rest, (run_genesis w t acts).actions = acts ++ rest := by
  simp only [run_genesis]
  split_ifs
  · exact ⟨[Action.download_genesis_template t], by simp⟩
  · exact ⟨[Action.download_genesis_template t, Action.chmod], by simp⟩
  · exact ⟨[Action.download_genesis_template t, Action.chmod,
      Action.init_network (chain_prefix_of w)], by simp⟩
  · rcases hgp : genesis_paths w.genesis_stdout with _ | ⟨gfp, rap⟩
    · exact ⟨[Action.download_genesis_template t, Action.chmod,
        Action.init_network (chain_prefix_of w)], by simp⟩
    · rcases hcid : chainIdOf gfp with _ | cid
      · exact ⟨[Action.download_genesis_template t, Action.chmod,
          Action.init_network (chain_prefix_of w)], by dsimp only; rw [hcid]; simp⟩
      · obtain ⟨rest, hrest⟩ := run_publish_chain_tail w cid rap
          (acts ++ [Action.download_genesis_template t] ++ [Action.chmod] ++
            [Action.init_network (chain_prefix_of w)])
        refine ⟨[Action.download_genesis_template t] ++ [Action.chmod] ++
          [Action.init_network (chain_prefix_of w)] ++ rest, ?_⟩
        dsimp only
        rw [hcid]
        dsimp only
        rw [hrest]
        simp [List.append_assoc]

/-- The genesis stage always performs the template download. -/
theorem run_genesis_has_template (w : World) (t : String) (acts : List Action) :
    Action.download_genesis_template t ∈ (run_genesis w t acts).actions := by
  simp only [run_genesis]
  split_ifs
  · simp
  · simp
  · simp
  · rcases hgp : genesis_paths w.genesis_stdout with _ | ⟨gfp, rap⟩
    · simp
    · rcases hcid : chainIdOf gfp with _ | cid
      · dsimp only
        rw [hcid]
        simp
      · obtain ⟨rest, hrest⟩ := run_publish_chain_tail w cid rap
          (acts ++ [Action.download_genesis_template t] ++ [Action.chmod] ++
            [Action.init_network (chain_prefix_of w)])
        dsimp only
        rw [hcid]
        dsimp only
        rw [hrest]
        simp

/-- If chain-data publication ends with exit code 0, its trace is the
accumulated trace followed exactly by the setup zip, the two chain-data
uploads, and the dispatch call. -/
theorem run_publish_chain_char (w : World) (cid rap : String) (acts : List Action)
    (h : (run_publish_chain w cid rap acts).outcome = Outcome.exited 0) :
    run_publish_chain w cid rap acts = ⟨Outcome.exited 0, acts ++
      [Action.zip_setup_folder cid,
       Action.upload_chain_data_archive rap CHAIN_DATA_BUCKET,
       Action.upload_chain_data_archive (cid ++ "-setup.zip") CHAIN_DATA_BUCKET,
       Action.dispatch_release (dispatch_payload cid)]⟩ := by
  simp only [run_publish_chain] at h ⊢
  split_ifs at h ⊢ <;> simp_all [List.append_assoc]

theorem run_genesis_fail_template (w : World) (t : String) (acts : List Action)
    (hT : w.template_rc ≠ 0) :
    run_genesis w t acts = ⟨Outcome.exited 1, acts ++ [Action.download_genesis_template t]⟩ := by
  simp [run_genesis, hT]

theorem run_genesis_fail_chmod (w : World) (t : String) (acts : List Action)
    (hT : w.template_rc = 0) (hC : w.chmod_rc ≠ 0) :
    run_genesis w t acts =
      ⟨Outcome.exited 1, acts ++ [Action.download_genesis_template t, Action.chmod]⟩ := by
  simp [run_genesis, hT, hC, List.append_assoc]

theorem run_genesis_fail_init (w : World) (t : String) (acts : List Action)
    (hT : w.template_rc = 0) (hC : w.chmod_rc = 0) (hG : w.genesis_rc ≠ 0) :
    run_genesis w t acts = ⟨Outcome.exited 1, acts ++
      [Action.download_genesis_template t, Action.chmod,
       Action.init_network (chain_prefix_of w)]⟩ := by
  simp [run_genesis, hT, hC, hG, List.append_assoc]

theorem run_genesis_crash_paths (w : World) (t : String) (acts : List Action)
    (hT : w.template_rc = 0) (hC : w.chmod_rc = 0) (hG : w.genesis_rc = 0)
    (hgp : genesis_paths w.genesis_stdout = none) :
    run_genesis w t acts = ⟨Outcome.crashed, acts ++
      [Action.download_genesis_template t, Action.chmod,
       Action.init_network (chain_prefix_of w)]⟩ := by
  simp [run_genesis, hT, hC, hG, hgp, List.append_assoc]

theorem run_genesis_crash_cid (w : World) (t : String) (acts : List Action)
    (gfp rap : String) (hT : w.template_rc = 0) (hC : w.chmod_rc = 0) (hG : w.genesis_rc = 0)
    (hgp : genesis_paths w.genesis_stdout = some (gfp, rap))
    (hcid : chainIdOf gfp = none) :
    run_genesis w t acts = ⟨Outcome.crashed, acts ++
      [Action.download_genesis_template t, Action.chmod,
       Action.init_network (chain_prefix_of w)]⟩ := by
  simp [run_genesis, hT, hC, hG, hgp, hcid, List.append_assoc]

theorem run_genesis_ok_eq (w : World) (t : String) (acts : List Action)
    (gfp rap cid : String) (hT : w.template_rc = 0) (hC : w.chmod_rc = 0)
    (hG : w.genesis_rc = 0)
    (hgp : genesis_paths w.genesis_stdout = some (gfp, rap))
    (hcid : chainIdOf gfp = some cid) :
    run_genesis w t acts = run_publish_chain w cid rap (acts ++
      [Action.download_genesis_template t, Action.chmod,
       Action.init_network (chain_prefix_of w)]) := by
  simp [run_genesis, hT, hC, hG, hgp, hcid, List.append_assoc]

/-- If the genesis stage ends with exit code 0, there are a chain ID and
a release archive path such that its trace is the accumulated trace
followed exactly by the template download, chmod, the genesis binary
invocation, the setup zip, the two uploads and the dispatch call. -/
theorem run_genesis_char (w : World) (t : String) (acts : List Action)
    (h : (run_genesis w t acts).outcome = Outcome.exited 0) :
    ∃ cid rap, run_genesis w t acts = ⟨Outcome.exited 0, acts ++
      [Action.download_genesis_template t, Action.chmod,
       Action.init_network (chain_prefix_of w),
       Action.zip_setup_folder cid,
       Action.upload_chain_data_archive rap CHAIN_DATA_BUCKET,
       Action.upload_chain_data_archive (cid ++ "-setup.zip") CHAIN_DATA_BUCKET,
       Action.dispatch_release (dispatch_payload cid)]⟩ := by
  by_cases hT : w.template_rc = 0
  · by_cases hC : w.chmod_rc = 0
    · by_cases hG : w.genesis_rc = 0
      · rcases hgp : genesis_paths w.genesis_stdout with _ | ⟨gfp, rap⟩
        · rw [run_genesis_crash_paths w t acts hT hC hG hgp] at h
          simp at h
        · rcases hcid : chainIdOf gfp with _ | cid
          · rw [run_genesis_crash_cid w t acts gfp rap hT hC hG hgp hcid] at h
            simp at h
          · rw [run_genesis_ok_eq w t acts gfp rap cid hT hC hG hgp hcid] at h
            have hchar := run_publish_chain_char w cid rap _ h
            refine ⟨cid, rap, ?_⟩
            rw [run_genesis_ok_eq w t acts gfp rap cid hT hC hG hgp hcid, hchar]
            simp [List.append_assoc]
      · rw [run_genesis_fail_init w t acts hT hC hG] at h
        simp at h
    · rw [run_genesis_fail_chmod w t acts hT hC] at h
      simp at h
  · rw [run_genesis_fail_template w t acts hT] at h
    simp at h

theorem run_gate (w : World) (hm : w.membership_state ≠ "active") :
    run w = ⟨Outcome.exited 0, [Action.get_membership]⟩ := by
  simp [run, hm]

theorem run_crash_parse (w : World) (hm : w.membership_state = "active")
    (hp : parse_command w.pr_comment = none) :
    run w = ⟨Outcome.crashed, [Action.get_membership, Action.fetch_pr]⟩ := by
  simp [run, hm, hp]

theorem run_ok_eq (w : World) (t : String) (r : String ⊕ Nat)
    (hm : w.membership_state = "active")
    (hp : parse_command w.pr_comment = some (t, r)) :
    run w = run_from_artifacts w t [Action.get_membership, Action.fetch_pr] := by
  simp [run, hm, hp]

theorem run_from_artifacts_aborted (w : World) (t : String) (acts acts2 : List Action)
    (hl : artifact_loop w w.artifacts 0 (acts ++ [Action.list_artifacts]) =
      LoopResult.aborted acts2) :
    run_from_artifacts w t acts = ⟨Outcome.exited 1, acts2⟩ := by
  simp [run_from_artifacts, hl]

theorem run_from_artifacts_done (w : World) (t : String) (acts acts2 : List Action) (n : Nat)
    (hl : artifact_loop w w.artifacts 0 (acts ++ [Action.list_artifacts]) =
      LoopResult.done n acts2) :
    run_from_artifacts w t acts =
      if n ≠ 2 then ⟨Outcome.exited 1, acts2⟩ else run_genesis w t acts2 := by
  simp [run_from_artifacts, hl]

/-- The wasm publication loop never reads anything from the world
except the (print-only) publish exit codes: its trace is the same in
any two worlds. -/
theorem publishLoop_world (w w' : World) (values : List String) (acts : List Action) :
    publishLoop w values acts = publishLoop w' values acts := by
  rw [publishLoop_eq, publishLoop_eq]

/-- The artifact loop depends only on the head SHA, the download and
unzip exit codes, and the checksums manifest. -/
theorem artifact_loop_world (w w' : World) (hsha : w.head_sha = w'.head_sha)
    (hcurl : w.curl_rc = w'.curl_rc) (hunzip : w.unzip_rc = w'.unzip_rc)
    (hck : w.checksums = w'.checksums) (l : List Artifact) :
    ∀ (s : Nat) (acts : List Action), artifact_loop w l s acts = artifact_loop w' l s acts := by
  induction l with
  | nil => intro s acts; simp [artifact_loop]
  | cons a rest ih =>
    intro s acts
    have hmw : matches_wasm w a = matches_wasm w' a := by simp [matches_wasm, hsha]
    have hmb : matches_binaries w a = matches_binaries w' a := by simp [matches_binaries, hsha]
    simp only [artifact_loop, hmw, hmb, hcurl, hunzip, hck, publishLoop_world w w', ih]

/-- The genesis stage depends only on the head SHA, the stage's exit
codes, and the genesis stdout. -/
theorem run_genesis_world (w w' : World) (hsha : w.head_sha = w'.head_sha)
    (hT : w.template_rc = w'.template_rc) (hC : w.chmod_rc = w'.chmod_rc)
    (hG : w.genesis_rc = w'.genesis_rc) (hout : w.genesis_stdout = w'.genesis_stdout)
    (hz : w.zip_rc = w'.zip_rc) (hup : w.upload_rc = w'.upload_rc)
    (hd : w.dispatch_rc = w'.dispatch_rc) (t : String) (acts : List Action) :
    run_genesis w t acts = run_genesis w' t acts := by
  have hcp : chain_prefix_of w = chain_prefix_of w' := by simp [chain_prefix_of, hsha]
  simp only [run_genesis, run_publish_chain, hT, hC, hG, hout, hz, hup, hd, hcp]

/-- The post-parse pipeline depends on every world field except the
membership state, the comment body, and the wasm publish exit codes. -/
theorem run_from_artifacts_world (w w' : World) (hsha : w.head_sha = w'.head_sha)
    (hart : w.artifacts = w'.artifacts) (hcurl : w.curl_rc = w'.curl_rc)
    (hunzip : w.unzip_rc = w'.unzip_rc) (hck : w.checksums = w'.checksums)
    (hT : w.template_rc = w'.template_rc) (hC : w.chmod_rc = w'.chmod_rc)
    (hG : w.genesis_rc = w'.genesis_rc) (hout : w.genesis_stdout = w'.genesis_stdout)
    (hz : w.zip_rc = w'.zip_rc) (hup : w.upload_rc = w'.upload_rc)
    (hd : w.dispatch_rc = w'.dispatch_rc) (t : String) (acts : List Action) :
    run_from_artifacts w t acts = run_from_artifacts w' t acts := by
  simp only [run_from_artifacts, hart,
    artifact_loop_world w w' hsha hcurl hunzip hck,
    run_genesis_world w w' hsha hT hC hG hout hz hup hd]

/-- The whole run is independent of the wasm publish exit codes (and of
any world difference outside the listed fields). -/
theorem run_world (w w' : World) (hm : w.membership_state = w'.membership_state)
    (hpr : w.pr_comment = w'.pr_comment) (hsha : w.head_sha = w'.head_sha)
    (hart : w.artifacts = w'.artifacts) (hcurl : w.curl_rc = w'.curl_rc)
    (hunzip : w.unzip_rc = w'.unzip_rc) (hck : w.checksums = w'.checksums)
    (hT : w.template_rc = w'.template_rc) (hC : w.chmod_rc = w'.chmod_rc)
    (hG : w.genesis_rc = w'.genesis_rc) (hout : w.genesis_stdout = w'.genesis_stdout)
    (hz : w.zip_rc = w'.zip_rc) (hup : w.upload_rc = w'.upload_rc)
    (hd : w.dispatch_rc = w'.dispatch_rc) :
    run w = run w' := by
  simp only [run, hm, hpr,
    run_from_artifacts_world w w' hsha hart hcurl hunzip hck hT hC hG hout hz hup hd]

/-- Two runs whose worlds differ only in the comment body, with both
bodies parsing to the same template name, are identical. -/
theorem run_same_template (w w' : World) (hm : w.membership_state = w'.membership_state)
    (hsha : w.head_sha = w'.head_sha) (hart : w.artifacts = w'.artifacts)
    (hcurl : w.curl_rc = w'.curl_rc) (hunzip : w.unzip_rc = w'.unzip_rc)
    (hck : w.checksums = w'.checksums) (hT : w.template_rc = w'.template_rc)
    (hC : w.chmod_rc = w'.chmod_rc) (hG : w.genesis_rc = w'.genesis_rc)
    (hout : w.genesis_stdout = w'.genesis_stdout) (hz : w.zip_rc = w'.zip_rc)
    (hup : w.upload_rc = w'.upload_rc) (hd : w.dispatch_rc = w'.dispatch_rc)
    (t : String) (r r' : String ⊕ Nat)
    (h1 : parse_command w.pr_comment = some (t, r))
    (h2 : parse_command w'.pr_comment = some (t, r')) :
    run w = run w' := by
  by_cases hact : w.membership_state = "active"
  · rw [run_ok_eq w t r hact h1, run_ok_eq w' t r' (hm ▸ hact) h2]
    exact run_from_artifacts_world w w' hsha hart hcurl hunzip hck hT hC hG hout hz hup hd
      t [Action.get_membership, Action.fetch_pr]
  · rw [run_gate w hact, run_gate w' (hm ▸ hact)]

theorem reScanChars_none (l : List Char) (h : ∀ c ∈ l, c ≠ '[') : reScanChars l = none := by
  induction l with
  | nil => rfl
  | cons c rest ih =>
    have hc : ¬((c == '[') = true) := by
      simp only [beq_iff_eq]
      exact h c (List.mem_cons_self c rest)
    simp only [reScanChars]
    rw [if_neg hc]
    exact ih (fun d hd => h d (List.mem_cons_of_mem _ hd))

/-- A non-expired wasm artifact for the PR head commit. -/
def wasm_art : Artifact := ⟨"wasm-artifacts", "abc1234sha", false, "https://ci/wasm.zip"⟩

/-- A non-expired binaries artifact for the PR head commit. -/
def bin_art : Artifact := ⟨"binaries-artifacts", "abc1234sha", false, "https://ci/binaries.zip"⟩

/-- A second non-expired wasm artifact for the PR head commit. -/
def wasm_art2 : Artifact := ⟨"wasm-other", "abc1234sha", false, "https://ci/wasm2.zip"⟩

/-- A fully successful environment: active membership, a well-formed
comment, one wasm and one binaries artifact, all subprocesses exit 0,
and genesis stdout whose last two lines carry the paths in column 4.
The genesis folder path `tmp/xyz-full` yields chain ID `xyz`. -/
def good_world : World :=
  ⟨"active", "please deploy [mainnet, 14] thanks", "abc1234sha", [wasm_art, bin_art],
   fun _ => 0, fun _ => 0, [("tx", "tx.wasm"), ("vp", "vp.wasm")], fun _ => 0,
   0, 0, 0,
   "Creating genesis folder at tmp/xyz-full\nCreating release archive at tmp/xyz.tar.gz",
   0, fun _ => 0, 0⟩

/-- `good_world`, except the upload of `xyz-setup.zip` fails. -/
def bug_world : World :=
  { good_world with upload_rc := fun p => if p == "xyz-setup.zip" then 1 else 0 }

/-- `good_world`, except the listing has two wasm artifacts and no
binaries artifact. -/
def two_wasm_world : World :=
  { good_world with artifacts := [wasm_art, wasm_art2] }

/-- `good_world` with the spec's checksums manifest
`{"a": "a.wasm", "b": "b.wasm"}`, where uploading `a.wasm` fails. -/
def pubfail_world : World :=
  { good_world with
    checksums := [("a", "a.wasm"), ("b", "b.wasm")],
    publish_rc := fun f => if f == "a.wasm" then 1 else 0 }

/-- `good_world` with a non-active membership state. -/
def nonactive_world : World :=
  { good_world with membership_state := "pending" }

/-- C1 the script assigns the setup-zip upload outcome on line 188 but
re-tests the release-archive upload outcome on line 189, so a failing
setup-zip upload is never detected: in `bug_world` that upload exits 1,
yet the run ends with exit code 0 and still performs the dispatch. -/
theorem c1_setup_upload_failure_ignored :
    bug_world.upload_rc ("xyz" ++ "-setup.zip") = 1 ∧
    (run bug_world).outcome = Outcome.exited 0 ∧
    Action.dispatch_release (dispatch_payload "xyz") ∈ (run bug_world).actions := by
  decide

/-- C2 counterexample: for the genesis folder path `/tmp/xyz-full` the
code computes `split("/")[1][:-5] = "tmp"[:-5] = ""`, not the basename
slice `"xyz"`. -/
theorem c2_basename_counterexample :
    chainIdOf "/tmp/xyz-full" = some "" ∧ chainIdOf "/tmp/xyz-full" ≠ some "xyz" := by
  decide

/-- C2 amended: the chain ID is the `'/'`-separated component at index 1
of the folder path with its last five characters removed — not the
basename: `/tmp/xyz-full` (index-1 component `tmp`) gives `""`, while
`tmp/xyz-full` (index-1 component `xyz-full`) gives `xyz`. -/
theorem c2_chain_id_slice :
    chainIdOf "/tmp/xyz-full" = some "" ∧ chainIdOf "tmp/xyz-full" = some "xyz" := by
  decide

/-- C3 counterexample: the example lines `Genesis folder: /tmp/xyz-full`
and `Archive: /tmp/xyz.tar.gz` have only three space-separated tokens,
so taking token index 4 fails (IndexError) instead of returning the
paths. -/
theorem c3_token_index_counterexample :
    genesis_paths "Genesis folder: /tmp/xyz-full\nArchive: /tmp/xyz.tar.gz" = none ∧
    genesis_paths "Genesis folder: /tmp/xyz-full\nArchive: /tmp/xyz.tar.gz" ≠
      some ("/tmp/xyz-full", "/tmp/xyz.tar.gz") := by
  decide

/-- C3 amended: the paths come from token index 4 of the space-split
second-to-last and last lines, which requires at least five tokens: for
five-token lines whose fifth token is the path, the extraction returns
exactly those paths. -/
theorem c3_paths_token_index :
    genesis_paths
        "log line\nCreating genesis folder at /tmp/xyz-full\nCreating release archive at /tmp/xyz.tar.gz" =
      some ("/tmp/xyz-full", "/tmp/xyz.tar.gz") ∧
    parse_output_line "Creating genesis folder at /tmp/xyz-full" = some "/tmp/xyz-full" := by
  decide

/-- C4 counterexample: a listing with two matching wasm artifacts and no
binaries artifact also brings the step counter to 2, so the run does not
exit 1 — it reaches genesis generation and completes. -/
theorem c4_two_wasm_counterexample :
    (∀ a ∈ two_wasm_world.artifacts, pyin "binaries" a.name = false) ∧
    (run two_wasm_world).outcome = Outcome.exited 0 ∧
    Action.download_genesis_template "mainnet" ∈ (run two_wasm_world).actions := by
  decide

/-- C4 amended: with successful downloads and unzips, every matched
artifact of either kind is downloaded; the post-loop check only compares
the total matched count with 2: the run reaches the genesis-template
download iff the count is 2, and exits 1 without any genesis action iff
the count differs from 2. -/
theorem c4_steps_check (w : World) (t : String) (r : String ⊕ Nat)
    (hm : w.membership_state = "active")
    (hp : parse_command w.pr_comment = some (t, r))
    (hc : ∀ u, w.curl_rc u = 0) (hu : ∀ z, w.unzip_rc z = 0) :
    (∀ a ∈ w.artifacts, matches_wasm w a = true →
        Action.download_artifact a.archive_download_url "wasm" ∈ (run w).actions) ∧
    (∀ a ∈ w.artifacts, matches_wasm w a = false → matches_binaries w a = true →
        Action.download_artifact a.archive_download_url "binaries" ∈ (run w).actions) ∧
    (matched_count w w.artifacts = 2 →
        Action.download_genesis_template t ∈ (run w).actions) ∧
    (matched_count w w.artifacts ≠ 2 →
        (run w).outcome = Outcome.exited 1 ∧
        ∀ x ∈ (run w).actions, mentions_template x = false) := by
  obtain ⟨ext, heq, hall, hmw, hmb⟩ := artifact_loop_ok w hc hu w.artifacts 0
    ([Action.get_membership, Action.fetch_pr] ++ [Action.list_artifacts])
  have hrun : run w = if (0 + matched_count w w.artifacts) ≠ 2
      then ⟨Outcome.exited 1,
        ([Action.get_membership, Action.fetch_pr] ++ [Action.list_artifacts]) ++ ext⟩
      else run_genesis w t
        (([Action.get_membership, Action.fetch_pr] ++ [Action.list_artifacts]) ++ ext) := by
    rw [run_ok_eq w t r hm hp,
      run_from_artifacts_done w t [Action.get_membership, Action.fetch_pr] _ _ heq]
  by_cases hcnt : matched_count w w.artifacts = 2
  · have hrun2 : run w = run_genesis w t
        (([Action.get_membership, Action.fetch_pr] ++ [Action.list_artifacts]) ++ ext) := by
      rw [hrun, if_neg (by simp [hcnt])]
    obtain ⟨rest, hrest⟩ := run_genesis_tail w t
      (([Action.get_membership, Action.fetch_pr] ++ [Action.list_artifacts]) ++ ext)
    refine ⟨?_, ?_, ?_, ?_⟩
    · intro a ha hwa
      rw [hrun2, hrest]
      exact List.mem_append_left _ (List.mem_append_right _ (hmw a ha hwa))
    · intro a ha hwa hba
      rw [hrun2, hrest]
      exact List.mem_append_left _ (List.mem_append_right _ (hmb a ha hwa hba))
    · intro _
      rw [hrun2]
      exact run_genesis_has_template w t _
    · intro hne
      exact absurd hcnt hne
  · have hrun2 : run w = ⟨Outcome.exited 1,
        ([Action.get_membership, Action.fetch_pr] ++ [Action.list_artifacts]) ++ ext⟩ := by
      rw [hrun, if_pos (by simp [hcnt])]
    refine ⟨?_, ?_, ?_, ?_⟩
    · intro a ha hwa
      rw [hrun2]
      exact List.mem_append_right _ (hmw a ha hwa)
    · intro a ha hwa hba
      rw [hrun2]
      exact List.mem_append_right _ (hmb a ha hwa hba)
    · intro h2
      exact absurd h2 hcnt
    · intro _
      refine ⟨by rw [hrun2], ?_⟩
      intro x hx
      rw [hrun2] at hx
      simp only [RunResult.mk.injEq] at hx
      rcases List.mem_append.mp hx with hx | hx
      · rcases List.mem_append.mp hx with hx | hx
        · rcases List.mem_cons.mp hx with rfl | hx
          · rfl
          · rcases List.mem_cons.mp hx with rfl | hx
            · rfl
            · cases hx
        · rcases List.mem_cons.mp hx with rfl | hx
          · rfl
          · cases hx
      · exact loop_action_not_template x (hall x hx)

/-- C4 witness: in `good_world` (exactly one artifact of each kind,
all downloads succeed) the matched count is 2 and the run performs the
genesis-template download. -/
theorem c4_steps_check_witness :
    Action.download_genesis_template "mainnet" ∈ (run good_world).actions :=
  (c4_steps_check good_world "mainnet" (Sum.inl "14") (by decide) (by decide)
      (fun _ => rfl) (fun _ => rfl)).2.2.1 (by decide)

/-- C5 for any membership state other than `"active"` the run exits 0
having performed no external action beyond the membership lookup
itself. -/
theorem c5_unauthorized_noop (w : World) (h : w.membership_state ≠ "active") :
    run w = ⟨Outcome.exited 0, [Action.get_membership]⟩ :=
  run_gate w h

/-- C5 witness: a concrete world with membership state `"pending"`. -/
theorem c5_unauthorized_noop_witness :
    run nonactive_world = ⟨Outcome.exited 0, [Action.get_membership]⟩ :=
  c5_unauthorized_noop nonactive_world (by decide)

/-- C6 the first bracketed comma-space-separated list is extracted:
`[mainnet, 14]` gives template `mainnet` and retention `14` (the raw
second element), `[mainnet]` gives the default retention 7, and a body
with no `'['` makes the extraction fail (the unguarded match error). -/
theorem c6_comment_extraction :
    parse_command "please deploy [mainnet, 14] thanks" = some ("mainnet", Sum.inl "14") ∧
    parse_command "please deploy [mainnet] thanks" = some ("mainnet", Sum.inr 7) ∧
    (∀ body : String, (∀ c ∈ body.data, c ≠ '[') → parse_command body = none) := by
  refine ⟨by decide, by decide, ?_⟩
  intro body hb
  simp [parse_command, reSearchBracket, reScanChars_none body.data hb]

/-- C6 witness: the no-bracket case at a concrete body. -/
theorem c6_comment_extraction_witness : parse_command "no brackets here" = none :=
  c6_comment_extraction.2.2 "no brackets here" (by decide)

/-- C7 every checksums value is uploaded by the publish loop; the whole
run is independent of the publish exit codes (an upload failure neither
aborts nor skips anything); concretely, with manifest values `a.wasm`
and `b.wasm` and the `a.wasm` upload failing, both uploads are attempted
and the run still exits 0. -/
theorem c7_wasm_upload_lenient :
    (∀ (w : World) (values : List String) (acts : List Action) (v : String), v ∈ values →
        Action.publish_wasm v WASM_BUCKET ∈ publishLoop w values acts) ∧
    (∀ (w : World) (f g : String → Int),
        run { w with publish_rc := f } = run { w with publish_rc := g }) ∧
    ((run pubfail_world).outcome = Outcome.exited 0 ∧
      Action.publish_wasm "a.wasm" WASM_BUCKET ∈ (run pubfail_world).actions ∧
      Action.publish_wasm "b.wasm" WASM_BUCKET ∈ (run pubfail_world).actions ∧
      pubfail_world.publish_rc "a.wasm" = 1) := by
  refine ⟨?_, ?_, ?_⟩
  · intro w values acts v hv
    rw [publishLoop_eq]
    exact List.mem_append_right _ (List.mem_map.mpr ⟨v, hv, rfl⟩)
  · intro w f g
    exact run_world _ _ rfl rfl rfl rfl rfl rfl rfl rfl rfl rfl rfl rfl rfl rfl
  · decide

/-- C7 witness: the universally quantified parts applied at concrete
inputs. -/
theorem c7_wasm_upload_lenient_witness :
    Action.publish_wasm "a.wasm" WASM_BUCKET ∈
      publishLoop good_world ["a.wasm", "b.wasm"] [] ∧
    run { good_world with publish_rc := fun _ => 1 } =
      run { good_world with publish_rc := fun _ => 0 } :=
  ⟨c7_wasm_upload_lenient.1 good_world ["a.wasm", "b.wasm"] [] "a.wasm" (by decide),
   c7_wasm_upload_lenient.2.1 good_world (fun _ => 1) (fun _ => 0)⟩

/-- C8 every run past the active-membership gate that exits 0 ends its
trace with the release-archive upload, the setup-zip upload, and exactly
one dispatch whose payload is the release JSON for the derived chain
ID. -/
theorem c8_single_dispatch (w : World) (ha : w.membership_state = "active")
    (h0 : (run w).outcome = Outcome.exited 0) :
    ∃ pre cid rap,
      (run w).actions = pre ++
        [Action.upload_chain_data_archive rap CHAIN_DATA_BUCKET,
         Action.upload_chain_data_archive (cid ++ "-setup.zip") CHAIN_DATA_BUCKET,
         Action.dispatch_release (dispatch_payload cid)] ∧
      List.countP is_dispatch (run w).actions = 1 := by
  rcases hpc : parse_command w.pr_comment with _ | ⟨t, r⟩
  · rw [run_crash_parse w ha hpc] at h0
    simp at h0
  · rw [run_ok_eq w t r ha hpc] at h0
    obtain ⟨ext, hall, hres⟩ := artifact_loop_shape w w.artifacts 0
      ([Action.get_membership, Action.fetch_pr] ++ [Action.list_artifacts])
    rcases hres with ⟨n, heq⟩ | heq
    · rw [run_from_artifacts_done w t [Action.get_membership, Action.fetch_pr] _ _ heq] at h0
      by_cases hn : n = 2
      · rw [if_neg (by simp [hn])] at h0
        obtain ⟨cid, rap, hchar⟩ := run_genesis_char w t _ h0
        have hrun : run w = ⟨Outcome.exited 0,
            (([Action.get_membership, Action.fetch_pr] ++ [Action.list_artifacts]) ++ ext) ++
            [Action.download_genesis_template t, Action.chmod,
             Action.init_network (chain_prefix_of w),
             Action.zip_setup_folder cid,
             Action.upload_chain_data_archive rap CHAIN_DATA_BUCKET,
             Action.upload_chain_data_archive (cid ++ "-setup.zip") CHAIN_DATA_BUCKET,
             Action.dispatch_release (dispatch_payload cid)]⟩ := by
          rw [run_ok_eq w t r ha hpc,
            run_from_artifacts_done w t [Action.get_membership, Action.fetch_pr] _ _ heq,
            if_neg (by simp [hn]), hchar]
        have hext : List.countP is_dispatch ext = 0 :=
          List.countP_eq_zero.mpr (fun x hx => by
            simp [loop_action_not_dispatch x (hall x hx)])
        refine ⟨(([Action.get_membership, Action.fetch_pr] ++ [Action.list_artifacts]) ++ ext) ++
          [Action.download_genesis_template t, Action.chmod,
           Action.init_network (chain_prefix_of w), Action.zip_setup_folder cid], cid, rap, ?_, ?_⟩
        · rw [hrun]
          simp [List.append_assoc]
        · rw [hrun]
          simp [List.countP_append, List.countP_cons, is_dispatch, hext]
      · rw [if_pos (by simp [hn])] at h0
        simp at h0
    · rw [run_from_artifacts_aborted w t [Action.get_membership, Action.fetch_pr] _ heq] at h0
      simp at h0

/-- C8 witness: the fully successful concrete run. -/
theorem c8_single_dispatch_witness :
    ∃ pre cid rap,
      (run good_world).actions = pre ++
        [Action.upload_chain_data_archive rap CHAIN_DATA_BUCKET,
         Action.upload_chain_data_archive (cid ++ "-setup.zip") CHAIN_DATA_BUCKET,
         Action.dispatch_release (dispatch_payload cid)] ∧
      List.countP is_dispatch (run good_world).actions = 1 :=
  c8_single_dispatch good_world (by decide) (by decide)

/-- C9 two runs whose worlds differ only in the comment body, with both
bodies parsing to the same template name (so only the retention element
differs), are identical in outcome and in every external action: the
retention period is never used after parsing. -/
theorem c9_retention_noninterference (w : World) (c1 c2 t : String) (r1 r2 : String ⊕ Nat)
    (h1 : parse_command c1 = some (t, r1)) (h2 : parse_command c2 = some (t, r2)) :
    run { w with pr_comment := c1 } = run { w with pr_comment := c2 } :=
  run_same_template _ _ rfl rfl rfl rfl rfl rfl rfl rfl rfl rfl rfl rfl rfl t r1 r2 h1 h2

/-- C9 witness: concrete comments with retention 3 and 99. -/
theorem c9_retention_noninterference_witness :
    run { good_world with pr_comment := "x [mainnet, 3] y" } =
      run { good_world with pr_comment := "x [mainnet, 99] y" } :=
  c9_retention_noninterference good_world "x [mainnet, 3] y" "x [mainnet, 99] y"
    "mainnet" (Sum.inl "3") (Sum.inl "99") (by decide) (by decide)

/-- C10 the parameter list is split only on the exact two-character
separator `", "`: for `[mainnet,14]` the single element `mainnet,14`
becomes the template name and the retention defaults to 7. -/
theorem c10_comma_space_split :
    parse_command "please deploy [mainnet,14] thanks" = some ("mainnet,14", Sum.inr 7) := by
  decide
end SpawnDevnet
